import Mathlib

/-!
Verification of the failure-classification layer (`src/error.rs`) of the
push-notification client: the `Error` enum, its `Display` and
`StdError::description` observers, and the four `From` conversions.

Foreign lower-layer failure types (serde, openssl, std::io, hyper) are
modelled by what the conversions can observe of them: their rendered
message (and, for the transport error, a numeric code, to state
independence from it).  The `Response`/`ErrorBody` types live in
`response.rs`, which is not part of the sources given, so they are
modelled from the spec's description of `DeliveryResponse`/`ReasonBody`.
-/

namespace A2

/-- Modelled from the spec: `ReasonBody` (`ErrorBody` in `response.rs`,
not under the given sources) carries a machine-readable reason string and
optional per-notification identifier/timestamp metadata. -/
structure ErrorBody where
  reason : String
  apns_id : Option String
  timestamp : Option Nat
deriving DecidableEq, Repr

/-- Modelled from the spec: `DeliveryResponse` (`Response` in
`response.rs`, not under the given sources) is a status code/outcome plus
an optional `ErrorBody`. -/
structure Response where
  code : Nat
  error : Option ErrorBody
deriving DecidableEq, Repr

/-- The `Error` enum of `src/error.rs`: the closed failure taxonomy. -/
inductive Error where
  | SerializeError : Error
  | ConnectionError : Error
  | TimeoutError : Error
  | SignerError : String → Error
  | ResponseError : Response → Error
  | InvalidOptions : String → Error
  | TlsError : String → Error
  | ReadError : String → Error
deriving DecidableEq, Repr

/-- The variant tag of an `Error` value, forgetting every payload. -/
inductive Tag where
  | serializeT | connectionT | timeoutT | signerT
  | responseT | invalidOptionsT | tlsT | readT
deriving DecidableEq, Repr

def Error.tag : Error → Tag
  | .SerializeError => .serializeT
  | .ConnectionError => .connectionT
  | .TimeoutError => .timeoutT
  | .SignerError _ => .signerT
  | .ResponseError _ => .responseT
  | .InvalidOptions _ => .invalidOptionsT
  | .TlsError _ => .tlsT
  | .ReadError _ => .readT

/-- `StdError::description` for `Error` (`src/error.rs` lines 55-66):
one static category string per variant. -/
def Error.description : Error → String
  | .SerializeError => "Error serializing to JSON"
  | .ConnectionError => "Error connecting to APNs"
  | .SignerError _ => "Error creating a signature"
  | .ResponseError _ => "Notification was not accepted by APNs"
  | .InvalidOptions _ => "Invalid options for APNs payload"
  | .TlsError _ => "Error in creating a TLS connection"
  | .ReadError _ => "Error in reading a certificate file"
  | .TimeoutError => "Timeout in sending a push notification"

/-- Rust's `{:?}` (Debug) rendering of a string: quoted. -/
def debugQuote (s : String) : String := "\x22" ++ s ++ "\x22"

/-- The `fmt::Display` impl for `Error` (`src/error.rs` lines 42-52),
embedded with explicit recursion fuel because the source recurses.  The
source's two arms are
`write!(fmt, "{} (reason: {:?})", self, reason)` and
`write!(fmt, "{}", self)`: both format `self` with `{}` inside `Display`
for the same type, i.e. both re-enter this very function on the same
value.  `none` models exhaustion of the recursion budget (in Rust: stack
overflow) with nothing written. -/
def displayFmt : Nat → Error → Option String
  | 0, _ => none
  | n + 1, Error.ResponseError ⟨c, some body⟩ =>
      (displayFmt n (Error.ResponseError ⟨c, some body⟩)).map
        (fun s => s ++ " (reason: " ++ debugQuote body.reason ++ ")")
  | n + 1, e => displayFmt n e

/-- `impl From<SerdeError> for Error` (`src/error.rs` lines 73-77):
the serde_json failure is discarded (`from(_)`).  A serde failure is
modelled by what it could offer: a rendered message and a location. -/
structure SerdeError where
  message : String
  line : Nat
  column : Nat
deriving DecidableEq, Repr

def from_serde_error (_ : SerdeError) : Error := Error.SerializeError

/-- An openssl `ErrorStack` failure, modelled by its rendered message
(the conversion uses only `format!("{}", e)`). -/
structure ErrorStack where
  message : String
deriving DecidableEq, Repr

/-- `impl From<ErrorStack> for Error` (`src/error.rs` lines 79-83):
`Error::SignerError(format!("{}", e))`. -/
def from_error_stack (e : ErrorStack) : Error := Error.SignerError e.message

/-- A std::io failure, modelled by its rendered message
(the conversion uses only `format!("{}", e)`). -/
structure IoError where
  message : String
deriving DecidableEq, Repr

/-- `impl From<IoError> for Error` (`src/error.rs` lines 85-89):
`Error::ReadError(format!("{}", e))`. -/
def from_io_error (e : IoError) : Error := Error.ReadError e.message

/-- A hyper transport failure, modelled by a rendered message and a
specific code, to state that the conversion is independent of both. -/
structure HyperError where
  code : Nat
  message : String
deriving DecidableEq, Repr

/-- `impl From<hyper::error::Error> for Error` (`src/error.rs` lines
91-95): the transport failure is discarded (`from(_)`). -/
def from_hyper_error (_ : HyperError) : Error := Error.ConnectionError

/-- A TLS handshake/session failure, modelled by its rendered message. -/
structure TlsHandshakeError where
  message : String
deriving DecidableEq, Repr

/-- Modelled from the spec: the TLS conversion site is outside the given
sources (`src/error.rs` only declares the `TlsError` variant, lines
35-36); per the spec, a TLS handshake/session failure converts to the
TLS variant carrying the lower-layer failure's rendered message. -/
def from_tls_error (e : TlsHandshakeError) : Error := Error.TlsError e.message

/-- A concrete rejection response: reason "BadDeviceToken", no metadata. -/
def badDeviceTokenResponse : Response :=
  { code := 400, error := some { reason := "BadDeviceToken", apns_id := none, timestamp := none } }

/-- A concrete rejection response: reason "PayloadTooLarge", no identifier. -/
def payloadTooLargeResponse : Response :=
  { code := 413, error := some { reason := "PayloadTooLarge", apns_id := none, timestamp := none } }

lemma displayFmt_eq_none (n : Nat) (e : Error) : displayFmt n e = none := by
  induction n generalizing e with
  | zero => rfl
  | succ n ih =>
    match e with
    | Error.ResponseError ⟨c, some body⟩ =>
        simp [displayFmt, ih]
    | Error.SerializeError => exact ih _
    | Error.ConnectionError => exact ih _
    | Error.TimeoutError => exact ih _
    | Error.SignerError s => exact ih _
    | Error.ResponseError ⟨c, none⟩ => exact ih _
    | Error.InvalidOptions s => exact ih _
    | Error.TlsError s => exact ih _
    | Error.ReadError s => exact ih _

/-- Claim C1 (code_bug evidence): for the `ResponseError` carrying reason
"BadDeviceToken", the `Display` rendering yields no output at any
recursion depth — both arms of the source's `fmt` format `self` with
`{}`, re-entering `fmt` on the same value, so rendering diverges instead
of producing the claimed `<default text> (reason: "BadDeviceToken")`. -/
theorem display_diverges_on_bad_device_token :
    ∀ n : Nat, displayFmt n (Error.ResponseError badDeviceTokenResponse) = none :=
  fun n => displayFmt_eq_none n (Error.ResponseError badDeviceTokenResponse)

/-- Claim C2 (code_bug evidence): for every variant of the error type and
every recursion budget, the `Display` rendering yields no output: the
source's `fmt` unconditionally recurses on `self`, so the rendering
operation never terminates with an output for any input. -/
theorem display_diverges_all_variants :
    ∀ (n : Nat) (e : Error), displayFmt n e = none :=
  fun n e => displayFmt_eq_none n e

/-- Claim C3 (counterexample): for the concrete `ResponseError` built
from a rejection with reason "PayloadTooLarge" and no identifier, the
categorical description is not "Notification was not accepted by the
gateway" — the code's string names APNs, not "the gateway". -/
theorem description_not_gateway_string :
    ¬ ((Error.ResponseError payloadTooLargeResponse).description
        = "Notification was not accepted by the gateway") := by
  decide

/-- Claim C3 (amended): for every `ResponseError` built from a rejection
whose body has reason "PayloadTooLarge" and no identifier (any status
code, any timestamp), the carried reason is retrievable from the payload,
and the categorical description is exactly
"Notification was not accepted by APNs". -/
theorem response_error_reason_retrievable (c : Nat) (ts : Option Nat) :
    (∃ body : ErrorBody,
        (Response.mk c (some (ErrorBody.mk "PayloadTooLarge" none ts))).error = some body
          ∧ body.reason = "PayloadTooLarge" ∧ body.apns_id = none)
      ∧ (Error.ResponseError (Response.mk c (some (ErrorBody.mk "PayloadTooLarge" none ts)))).description
          = "Notification was not accepted by APNs" :=
  ⟨⟨ErrorBody.mk "PayloadTooLarge" none ts, rfl, rfl, rfl⟩, rfl⟩

/-- Claim C4: converting an openssl `ErrorStack` failure yields
`SignerError` carrying exactly the failure's rendered message; in
particular a failure rendering as "bad key format" yields
`SignerError "bad key format"` verbatim. -/
theorem error_stack_message_preserved :
    (∀ e : ErrorStack, from_error_stack e = Error.SignerError e.message)
      ∧ from_error_stack ⟨"bad key format"⟩ = Error.SignerError "bad key format" :=
  ⟨fun _ => rfl, rfl⟩

/-- Claim C5: converting a JSON encode/decode failure yields the bare
`SerializeError` constant — the same result for any two serde inputs,
regardless of their content. -/
theorem serde_conversion_constant :
    (∀ e : SerdeError, from_serde_error e = Error.SerializeError)
      ∧ ∀ e₁ e₂ : SerdeError, from_serde_error e₁ = from_serde_error e₂ :=
  ⟨fun _ => rfl, fun _ _ => rfl⟩

/-- Claim C6: converting a transport/connection failure yields the bare
`ConnectionError` constant — the same result for any two transport
inputs, regardless of the underlying error's specific code. -/
theorem hyper_conversion_constant :
    (∀ e : HyperError, from_hyper_error e = Error.ConnectionError)
      ∧ ∀ e₁ e₂ : HyperError, from_hyper_error e₁ = from_hyper_error e₂ :=
  ⟨fun _ => rfl, fun _ _ => rfl⟩

/-- Claim C7 (spec-modelled conversion site): the conversion from a TLS
handshake/session failure into the error type is total and infallible,
and for every input yields `TlsError` carrying that failure's rendered
message. -/
theorem tls_conversion_total :
    ∀ e : TlsHandshakeError,
      ∃ s : String, from_tls_error e = Error.TlsError s ∧ s = e.message :=
  fun e => ⟨e.message, rfl, rfl⟩

/-- Claim C8: the categorical description is a pure function of the
variant tag only — any two error values with the same tag, whatever
their payloads (different rejection responses, different diagnostic
strings), get the same category string. -/
theorem description_depends_only_on_tag (e₁ e₂ : Error) (h : e₁.tag = e₂.tag) :
    e₁.description = e₂.description := by
  cases e₁ <;> cases e₂ <;> first | rfl | exact absurd h (by simp [Error.tag])

/-- Claim C8 witness: two `ResponseError` values carrying responses with
different reasons have equal tags, hence equal category strings. -/
theorem description_depends_only_on_tag_witness :
    (Error.ResponseError badDeviceTokenResponse).tag
        = (Error.ResponseError payloadTooLargeResponse).tag
      ∧ (Error.ResponseError badDeviceTokenResponse).description
          = (Error.ResponseError payloadTooLargeResponse).description :=
  ⟨rfl, description_depends_only_on_tag
    (Error.ResponseError badDeviceTokenResponse)
    (Error.ResponseError payloadTooLargeResponse) rfl⟩

/-- Claim C9: the error type is closed with exactly the eight stated
variants and payloads — every value is the payload-free
`SerializeError`, `ConnectionError` or `TimeoutError`, or `SignerError`,
`InvalidOptions`, `TlsError` or `ReadError` with a single diagnostic
string, or `ResponseError` with a structured gateway response. -/
theorem error_variants_exhaustive :
    ∀ e : Error,
      e = Error.SerializeError ∨ e = Error.ConnectionError ∨ e = Error.TimeoutError
        ∨ (∃ s : String, e = Error.SignerError s)
        ∨ (∃ r : Response, e = Error.ResponseError r)
        ∨ (∃ s : String, e = Error.InvalidOptions s)
        ∨ (∃ s : String, e = Error.TlsError s)
        ∨ (∃ s : String, e = Error.ReadError s) := by
  intro e
  cases e with
  | SerializeError => exact Or.inl rfl
  | ConnectionError => exact Or.inr (Or.inl rfl)
  | TimeoutError => exact Or.inr (Or.inr (Or.inl rfl))
  | SignerError s => exact Or.inr (Or.inr (Or.inr (Or.inl ⟨s, rfl⟩)))
  | ResponseError r => exact Or.inr (Or.inr (Or.inr (Or.inr (Or.inl ⟨r, rfl⟩))))
  | InvalidOptions s =>
      exact Or.inr (Or.inr (Or.inr (Or.inr (Or.inr (Or.inl ⟨s, rfl⟩)))))
  | TlsError s =>
      exact Or.inr (Or.inr (Or.inr (Or.inr (Or.inr (Or.inr (Or.inl ⟨s, rfl⟩))))))
  | ReadError s =>
      exact Or.inr (Or.inr (Or.inr (Or.inr (Or.inr (Or.inr (Or.inr ⟨s, rfl⟩))))))

/-- Claim C10: each of the four `From` conversions produces only its
designated variant, and none of them ever produces `TimeoutError`,
`ResponseError`, `InvalidOptions` or `TlsError`. -/
theorem conversions_designated_variants :
    (∀ e : SerdeError, from_serde_error e = Error.SerializeError)
      ∧ (∀ e : ErrorStack, from_error_stack e = Error.SignerError e.message)
      ∧ (∀ e : IoError, from_io_error e = Error.ReadError e.message)
      ∧ (∀ e : HyperError, from_hyper_error e = Error.ConnectionError)
      ∧ (∀ e : SerdeError,
          (from_serde_error e).tag ≠ Tag.timeoutT
            ∧ (from_serde_error e).tag ≠ Tag.responseT
            ∧ (from_serde_error e).tag ≠ Tag.invalidOptionsT
            ∧ (from_serde_error e).tag ≠ Tag.tlsT)
      ∧ (∀ e : ErrorStack,
          (from_error_stack e).tag ≠ Tag.timeoutT
            ∧ (from_error_stack e).tag ≠ Tag.responseT
            ∧ (from_error_stack e).tag ≠ Tag.invalidOptionsT
            ∧ (from_error_stack e).tag ≠ Tag.tlsT)
      ∧ (∀ e : IoError,
          (from_io_error e).tag ≠ Tag.timeoutT
            ∧ (from_io_error e).tag ≠ Tag.responseT
            ∧ (from_io_error e).tag ≠ Tag.invalidOptionsT
            ∧ (from_io_error e).tag ≠ Tag.tlsT)
      ∧ (∀ e : HyperError,
          (from_hyper_error e).tag ≠ Tag.timeoutT
            ∧ (from_hyper_error e).tag ≠ Tag.responseT
            ∧ (from_hyper_error e).tag ≠ Tag.invalidOptionsT
            ∧ (from_hyper_error e).tag ≠ Tag.tlsT) := by
  refine ⟨fun _ => rfl, fun _ => rfl, fun _ => rfl, fun _ => rfl, ?_, ?_, ?_, ?_⟩ <;>
    intro e <;> refine ⟨?_, ?_, ?_, ?_⟩ <;>
    simp [from_serde_error, from_error_stack, from_io_error, from_hyper_error, Error.tag]

end A2
